import Mathlib

/-!
Verification of the mortgage-return scenario calculator
(`mortgage_return_scenario_calculator` package).

The Python source works over IEEE floats; the embedding works over `ℚ`
(exact rational arithmetic), with `ℤ` for the integer-typed period counts.
The `numpy_financial` closed-form annuity functions (`npf.pmt`, `npf.fv`,
`npf.pv`) are embedded by their defining closed forms.  `npf.rate`, an
iterative numeric root solver with no closed form over `ℚ`, is kept as an
explicit function parameter (`RateFn`) wherever the source calls it; every
theorem below holds for all instantiations of that parameter.
-/

/-- Signature of `npf.rate nper pmt pv fv`, the iterative rate solver from
numpy-financial, kept abstract. -/
abbrev RateFn := ℤ → ℚ → ℚ → ℚ → ℚ

/-- Embedding of `financial.calculate_pmt`.  The source returns `0` when the
principal is `0`, `pv / nper` when the annual rate is `0`, and otherwise
`-npf.pmt(rate/12, nper, pv)`, whose closed form is
`pv * r * (1+r)^n / ((1+r)^n - 1)` with `r = rate/12`. -/
def calculate_pmt (rate : ℚ) (nper : ℤ) (pv : ℚ) : ℚ :=
  if pv = 0 then 0
  else if rate = 0 then pv / (nper : ℚ)
  else
    let monthly_rate := rate / 12
    pv * monthly_rate * (1 + monthly_rate) ^ nper / ((1 + monthly_rate) ^ nper - 1)

/-- Embedding of `financial.calculate_fv`.  Zero-rate branch from the source;
otherwise `npf.fv(rate, nper, pmt, pv) = -pv*(1+r)^n - pmt*((1+r)^n - 1)/r`. -/
def calculate_fv (rate : ℚ) (nper : ℤ) (pmt : ℚ) (pv : ℚ) : ℚ :=
  if rate = 0 then -(pv + pmt * (nper : ℚ))
  else -(pv * (1 + rate) ^ nper) - pmt * ((1 + rate) ^ nper - 1) / rate

/-- Embedding of `financial.calculate_pv`.  Zero-rate branch from the source;
otherwise `npf.pv(rate, nper, pmt) = -pmt*((1+r)^n - 1)/(r*(1+r)^n)`. -/
def calculate_pv (rate : ℚ) (nper : ℤ) (pmt : ℚ) : ℚ :=
  if rate = 0 then -pmt * (nper : ℚ)
  else -(pmt * ((1 + rate) ^ nper - 1) / (rate * (1 + rate) ^ nper))

/-- Embedding of `financial.calculate_compound_growth`:
`npf.fv(rate, years, 0, -principal) - principal`, i.e.
`principal*(1+rate)^years - principal`, guarded by `years <= 0 or rate == 0`. -/
def calculate_compound_growth (principal : ℚ) (rate : ℚ) (years : ℤ) : ℚ :=
  if years ≤ 0 ∨ rate = 0 then 0
  else principal * (1 + rate) ^ years - principal

/-- Embedding of `financial.calculate_compound_value`:
`npf.fv(rate, years, 0, -principal) = principal*(1+rate)^years`, with the
source's two guard branches returning the principal unchanged. -/
def calculate_compound_value (principal : ℚ) (rate : ℚ) (years : ℤ) : ℚ :=
  if years ≤ 0 then principal
  else if rate = 0 then principal
  else principal * (1 + rate) ^ years

/-- Embedding of `financial.calculate_annualized_return`, which delegates to
`npf.rate(years, 0, -1, 1 + total_return)` outside its two guard branches. -/
def calculate_annualized_return (npfRate : RateFn) (total_return : ℚ) (years : ℤ) : ℚ :=
  if years ≤ 0 then 0
  else if total_return = 0 then 0
  else npfRate years 0 (-1) (1 + total_return)

/-- For a positive monthly-rate base, the discrete annuity power exceeds one. -/
lemma one_lt_annuity_pow {r : ℚ} (hr : 0 < r) {n : ℤ} (hn : 0 < n) :
    1 < (1 + r) ^ n := by
  have hbase : 1 < 1 + r := by linarith
  have hn0 : n = (n.toNat : ℤ) := (Int.toNat_of_nonneg hn.le).symm
  rw [hn0, zpow_natCast]
  exact one_lt_pow₀ hbase (by omega)

/-- Positivity of the embedded PMT on positive principal, non-negative rate
and a positive number of periods. -/
lemma calculate_pmt_pos {rate : ℚ} {nper : ℤ} {pv : ℚ}
    (hpv : 0 < pv) (hr : 0 ≤ rate) (hn : 0 < nper) :
    0 < calculate_pmt rate nper pv := by
  unfold calculate_pmt
  rw [if_neg (by linarith)]
  rcases eq_or_lt_of_le hr with hr0 | hrpos
  · rw [if_pos hr0.symm]
    exact div_pos hpv (by exact_mod_cast hn)
  · rw [if_neg (by linarith)]
    have hm : 0 < rate / 12 := by linarith
    have hpow : 1 < (1 + rate / 12) ^ nper := one_lt_annuity_pow hm hn
    have hnum : 0 < pv * (rate / 12) * (1 + rate / 12) ^ nper := by positivity
    exact div_pos hnum (by linarith)

/-- C8: `calculate_pmt` returns 0 on zero principal; returns
`principal / nMonths` at zero rate, so the zero-rate payment recovers the
principal exactly over `n` periods; otherwise returns the standard annuity
payment at `annualRate/12` per month; and at a non-negative rate over a
positive number of months a non-negative principal yields a non-negative
payment. -/
theorem pmt_contract (rate : ℚ) (n : ℤ) (p : ℚ) :
    calculate_pmt rate n 0 = 0 ∧
    (0 < n → calculate_pmt 0 n p = p / (n : ℚ)) ∧
    (0 < n → calculate_pmt 0 n p * (n : ℚ) = p) ∧
    (0 ≤ p → 0 ≤ rate → 0 < n → 0 ≤ calculate_pmt rate n p) ∧
    (p ≠ 0 → rate ≠ 0 →
      calculate_pmt rate n p =
        p * (rate / 12) * (1 + rate / 12) ^ n / ((1 + rate / 12) ^ n - 1)) := by
  have hzero : calculate_pmt rate n 0 = 0 := by simp [calculate_pmt]
  refine ⟨hzero, ?_, ?_, ?_, ?_⟩
  · intro _
    by_cases hp : p = 0
    · simp [calculate_pmt, hp]
    · simp [calculate_pmt, hp]
  · intro hn
    have hcast : (n : ℚ) ≠ 0 := by exact_mod_cast hn.ne'
    by_cases hp : p = 0
    · simp [calculate_pmt, hp]
    · simp only [calculate_pmt, if_neg hp, if_pos rfl]
      field_simp
  · intro hp hr hn
    rcases eq_or_lt_of_le hp with hp0 | hppos
    · simp [calculate_pmt, ← hp0]
    · exact (calculate_pmt_pos hppos hr hn).le
  · intro hp hr
    simp [calculate_pmt, hp, hr]

/-- Witness for `pmt_contract` at rate 0, 12 months, principal 1200. -/
theorem pmt_contract_witness :
    calculate_pmt 0 12 1200 = 100 ∧ calculate_pmt 0 12 1200 * 12 = 1200 := by
  have h := pmt_contract 0 12 1200
  refine ⟨?_, ?_⟩
  · have := h.2.1 (by decide)
    rw [this]
    norm_num
  · have := h.2.2.1 (by decide)
    simpa using this

/-- C9: compounding over zero years leaves the principal unchanged and yields
zero growth; more generally, whenever `years <= 0` or the rate is zero,
`calculate_compound_growth` returns 0 and `calculate_compound_value` returns
the principal unchanged. -/
theorem compound_zero_years_contract (p r : ℚ) (y : ℤ) :
    calculate_compound_value p r 0 = p ∧
    calculate_compound_growth p r 0 = 0 ∧
    (y ≤ 0 ∨ r = 0 →
      calculate_compound_growth p r y = 0 ∧ calculate_compound_value p r y = p) := by
  refine ⟨by simp [calculate_compound_value], by simp [calculate_compound_growth], ?_⟩
  intro h
  constructor
  · simp [calculate_compound_growth, h]
  · rcases h with hy | hr
    · simp [calculate_compound_value, hy]
    · unfold calculate_compound_value
      by_cases hy : y ≤ 0 <;> simp [hy, hr]

/-- Witness for `compound_zero_years_contract` with negative years and a
nonzero rate. -/
theorem compound_zero_years_contract_witness :
    calculate_compound_growth 500 (1/20) (-3) = 0 ∧
    calculate_compound_value 500 (1/20) (-3) = 500 := by
  have h := (compound_zero_years_contract 500 (1/20) (-3)).2.2 (Or.inl (by decide))
  exact h

/-- Embedding of `tax_config.TaxBracket`: inclusive lower bound, optional
exclusive upper bound (`none` for the unbounded top bracket), marginal rate. -/
structure TaxBracket where
  min_value : ℚ
  max_value : Option ℚ
  rate : ℚ
deriving DecidableEq

/-- Embedding of `tax_config.FIRST_HOUSE_BRACKETS`. -/
def FIRST_HOUSE_BRACKETS : List TaxBracket :=
  [⟨0, some 1805000, 0⟩,
   ⟨1805000, some 2085000, 35/1000⟩,
   ⟨2085000, some 5000000, 5/100⟩,
   ⟨5000000, some 17000000, 75/1000⟩,
   ⟨17000000, none, 10/100⟩]

/-- Embedding of `tax_config.ADDITIONAL_HOUSE_BRACKETS`. -/
def ADDITIONAL_HOUSE_BRACKETS : List TaxBracket :=
  [⟨0, some 1805000, 8/100⟩,
   ⟨1805000, some 2085000, 8/100⟩,
   ⟨2085000, some 5000000, 8/100⟩,
   ⟨5000000, some 17000000, 8/100⟩,
   ⟨17000000, none, 10/100⟩]

/-- The `for bracket in brackets` loop body of
`tax_config.calculate_purchase_tax`, with the `break` on
`property_value <= bracket.min_value` embedded as truncation of the
recursion.  `min(property_value, inf)` for the unbounded bracket is
`property_value` itself. -/
def purchaseTaxLoop (value : ℚ) : List TaxBracket → ℚ
  | [] => 0
  | b :: bs =>
    if value ≤ b.min_value then 0
    else
      let bracket_end :=
        match b.max_value with
        | none => value
        | some m => min value m
      let amount_in_bracket := bracket_end - b.min_value
      (if 0 < amount_in_bracket then amount_in_bracket * b.rate else 0) +
        purchaseTaxLoop value bs

/-- Embedding of `tax_config.calculate_purchase_tax`. -/
def calculate_purchase_tax (property_value : ℚ) (is_first_house : Bool) : ℚ :=
  if property_value ≤ 0 then 0
  else
    purchaseTaxLoop property_value
      (if is_first_house then FIRST_HOUSE_BRACKETS else ADDITIONAL_HOUSE_BRACKETS)

/-- Modelled from the spec's words for comparison with the source loop: the
upper limit a bracket contributes against, `min(amount, bracketUpper)` with
the unbounded top bracket contributing up to the amount itself. -/
def bracketUpper (value : ℚ) (b : TaxBracket) : ℚ :=
  match b.max_value with
  | none => value
  | some m => m

/-- Spec-side contribution of one bracket:
`(min(amount, bracketUpper) - bracketLower) * bracketRate`. -/
def bracketContribution (value : ℚ) (b : TaxBracket) : ℚ :=
  (min value (bracketUpper value b) - b.min_value) * b.rate

/-- Spec-side tax: the sum, over every bracket whose lower bound is below the
amount, of that bracket's contribution. -/
def purchase_tax_spec (value : ℚ) (brackets : List TaxBracket) : ℚ :=
  ((brackets.filter (fun b => decide (b.min_value < value))).map
    (bracketContribution value)).sum

lemma purchase_tax_spec_nil (value : ℚ) : purchase_tax_spec value [] = 0 := rfl

lemma purchase_tax_spec_cons (value : ℚ) (b : TaxBracket) (bs : List TaxBracket) :
    purchase_tax_spec value (b :: bs) =
      (if b.min_value < value then bracketContribution value b else 0) +
        purchase_tax_spec value bs := by
  unfold purchase_tax_spec
  rw [List.filter_cons]
  by_cases h : b.min_value < value
  · simp [h]
  · simp [h]

/-- The truncating source loop agrees with the spec-side filtered sum on any
bracket list whose lower bounds are nondecreasing and lie strictly below
their respective upper bounds. -/
lemma purchaseTaxLoop_eq_spec (value : ℚ) :
    ∀ l : List TaxBracket,
      (∀ b ∈ l, ∀ m ∈ b.max_value, b.min_value < m) →
      l.Pairwise (fun a b => a.min_value ≤ b.min_value) →
      purchaseTaxLoop value l = purchase_tax_spec value l := by
  intro l
  induction l with
  | nil => intro _ _; rfl
  | cons b bs ih =>
    intro hub hpair
    rw [purchase_tax_spec_cons]
    unfold purchaseTaxLoop
    rcases List.pairwise_cons.mp hpair with ⟨hle, hpair'⟩
    by_cases hbreak : value ≤ b.min_value
    · rw [if_pos hbreak, if_neg (not_lt.mpr hbreak)]
      have hrest : purchase_tax_spec value bs = 0 := by
        unfold purchase_tax_spec
        have : bs.filter (fun c => decide (c.min_value < value)) = [] := by
          apply List.filter_eq_nil_iff.mpr
          intro c hc
          simp only [decide_eq_true_eq]
          push_neg
          exact le_trans hbreak (hle c hc)
        rw [this]
        rfl
      rw [hrest]
      ring
    · push_neg at hbreak
      rw [if_neg (not_le.mpr hbreak), if_pos hbreak,
        ih (fun c hc => hub c (List.mem_cons_of_mem b hc)) hpair']
      cases hmax : b.max_value with
      | none =>
        simp only [bracketContribution, bracketUpper, hmax, min_self]
        rw [if_pos (by linarith)]
      | some m =>
        have hm : b.min_value < m := hub b (List.mem_cons_self b bs) m (by rw [hmax]; rfl)
        simp only [bracketContribution, bracketUpper, hmax]
        rw [if_pos (by rcases le_total value m with h | h
                       · rw [min_eq_left h]; linarith
                       · rw [min_eq_right h]; linarith)]

/-- Every lower bound of both fixed schedules is non-negative, so amounts
`<= 0` select no bracket in the spec-side sum either. -/
lemma purchase_tax_spec_nonpos (value : ℚ) (hv : value ≤ 0) :
    purchase_tax_spec value FIRST_HOUSE_BRACKETS = 0 ∧
    purchase_tax_spec value ADDITIONAL_HOUSE_BRACKETS = 0 := by
  constructor <;>
  · simp only [FIRST_HOUSE_BRACKETS, ADDITIONAL_HOUSE_BRACKETS,
      purchase_tax_spec_cons, purchase_tax_spec_nil]
    rw [if_neg (by norm_num; linarith), if_neg (by norm_num; linarith),
      if_neg (by norm_num; linarith), if_neg (by norm_num; linarith),
      if_neg (by norm_num; linarith)]
    ring

/-- In the first-house schedule every bounded bracket's lower bound lies
strictly below its upper bound. -/
lemma first_house_bounds :
    ∀ b ∈ FIRST_HOUSE_BRACKETS, ∀ m ∈ b.max_value, b.min_value < m := by
  intro b hb m hm
  simp only [FIRST_HOUSE_BRACKETS, List.mem_cons, List.not_mem_nil, or_false] at hb
  rcases hb with rfl | rfl | rfl | rfl | rfl <;> simp_all <;> exact hm ▸ by norm_num

/-- In the additional-house schedule every bounded bracket's lower bound lies
strictly below its upper bound. -/
lemma additional_house_bounds :
    ∀ b ∈ ADDITIONAL_HOUSE_BRACKETS, ∀ m ∈ b.max_value, b.min_value < m := by
  intro b hb m hm
  simp only [ADDITIONAL_HOUSE_BRACKETS, List.mem_cons, List.not_mem_nil, or_false] at hb
  rcases hb with rfl | rfl | rfl | rfl | rfl <;> simp_all <;> exact hm ▸ by norm_num

/-- The embedded `calculate_purchase_tax` equals the spec-side filtered sum on
both fixed schedules, for every amount. -/
lemma calculate_purchase_tax_eq_spec (value : ℚ) (s : Bool) :
    calculate_purchase_tax value s =
      purchase_tax_spec value
        (if s then FIRST_HOUSE_BRACKETS else ADDITIONAL_HOUSE_BRACKETS) := by
  unfold calculate_purchase_tax
  by_cases hv : value ≤ 0
  · rw [if_pos hv]
    rcases purchase_tax_spec_nonpos value hv with ⟨h1, h2⟩
    cases s
    · simp [h2]
    · simp [h1]
  · rw [if_neg hv]
    apply purchaseTaxLoop_eq_spec
    · cases s
      · exact additional_house_bounds
      · exact first_house_bounds
    · cases s <;> decide

/-- Termwise monotonicity of the spec-side filtered sum in the amount, for
bracket lists with non-negative rates and lower bounds below upper bounds. -/
lemma purchase_tax_spec_mono {a c : ℚ} (hac : a ≤ c) :
    ∀ l : List TaxBracket,
      (∀ b ∈ l, 0 ≤ b.rate) →
      (∀ b ∈ l, ∀ m ∈ b.max_value, b.min_value ≤ m) →
      purchase_tax_spec a l ≤ purchase_tax_spec c l := by
  intro l
  induction l with
  | nil => intro _ _; simp [purchase_tax_spec_nil]
  | cons b bs ih =>
    intro hrate hub
    rw [purchase_tax_spec_cons, purchase_tax_spec_cons]
    have hr := hrate b (List.mem_cons_self b bs)
    apply add_le_add
    · by_cases ha : b.min_value < a
      · have hc : b.min_value < c := lt_of_lt_of_le ha hac
        rw [if_pos ha, if_pos hc]
        unfold bracketContribution bracketUpper
        cases hmax : b.max_value with
        | none =>
          simp only [min_self]
          exact mul_le_mul_of_nonneg_right (by linarith) hr
        | some m =>
          apply mul_le_mul_of_nonneg_right _ hr
          have : min a m ≤ min c m := min_le_min hac le_rfl
          linarith
      · rw [if_neg ha]
        by_cases hc : b.min_value < c
        · rw [if_pos hc]
          unfold bracketContribution bracketUpper
          apply mul_nonneg _ hr
          cases hmax : b.max_value with
          | none => simp only [min_self]; linarith
          | some m =>
            have hm : b.min_value ≤ m :=
              hub b (List.mem_cons_self b bs) m (by rw [hmax]; rfl)
            have : b.min_value ≤ min c m := le_min hc.le hm
            linarith
        · rw [if_neg hc]
    · exact ih (fun x hx => hrate x (List.mem_cons_of_mem b hx))
        (fun x hx => hub x (List.mem_cons_of_mem b hx))

/-- Rates in the first-house schedule are non-negative. -/
lemma first_house_rates_nonneg : ∀ b ∈ FIRST_HOUSE_BRACKETS, 0 ≤ b.rate := by
  intro b hb
  simp only [FIRST_HOUSE_BRACKETS, List.mem_cons, List.not_mem_nil, or_false] at hb
  rcases hb with rfl | rfl | rfl | rfl | rfl <;> norm_num

/-- Rates in the additional-house schedule are non-negative. -/
lemma additional_house_rates_nonneg : ∀ b ∈ ADDITIONAL_HOUSE_BRACKETS, 0 ≤ b.rate := by
  intro b hb
  simp only [ADDITIONAL_HOUSE_BRACKETS, List.mem_cons, List.not_mem_nil, or_false] at hb
  rcases hb with rfl | rfl | rfl | rfl | rfl <;> norm_num

/-- `calculate_purchase_tax` is monotone in the amount on both schedules. -/
lemma calculate_purchase_tax_mono (s : Bool) {a c : ℚ} (hac : a ≤ c) :
    calculate_purchase_tax a s ≤ calculate_purchase_tax c s := by
  rw [calculate_purchase_tax_eq_spec, calculate_purchase_tax_eq_spec]
  cases s
  · exact purchase_tax_spec_mono hac ADDITIONAL_HOUSE_BRACKETS
      additional_house_rates_nonneg
      (fun b hb m hm => (additional_house_bounds b hb m hm).le)
  · exact purchase_tax_spec_mono hac FIRST_HOUSE_BRACKETS
      first_house_rates_nonneg
      (fun b hb m hm => (first_house_bounds b hb m hm).le)

/-- C6: for every amount and both fixed schedules, `calculate_purchase_tax`
equals the sum, over every bracket whose lower bound is below the amount, of
`(min(amount, bracketUpper) - bracketLower) * bracketRate`; amounts `<= 0`
yield zero tax; a first-house value strictly below the lowest bracket
boundary 1,805,000 is taxed exactly 0; and a first-house value
`1805000 + x` inside the second bracket is taxed `x * 0.035`. -/
theorem purchase_tax_bracket_sum :
    (∀ v : ℚ, ∀ s : Bool,
      calculate_purchase_tax v s =
        purchase_tax_spec v
          (if s then FIRST_HOUSE_BRACKETS else ADDITIONAL_HOUSE_BRACKETS)) ∧
    (∀ v : ℚ, ∀ s : Bool, v ≤ 0 → calculate_purchase_tax v s = 0) ∧
    (∀ v : ℚ, 0 < v → v < 1805000 → calculate_purchase_tax v true = 0) ∧
    (∀ x : ℚ, 0 ≤ x → x < 280000 →
      calculate_purchase_tax (1805000 + x) true = x * (35/1000)) := by
  refine ⟨calculate_purchase_tax_eq_spec, ?_, ?_, ?_⟩
  · intro v s hv
    simp [calculate_purchase_tax, hv]
  · intro v hv0 hv1
    rw [calculate_purchase_tax_eq_spec]
    simp only [if_true, FIRST_HOUSE_BRACKETS, purchase_tax_spec_cons,
      purchase_tax_spec_nil]
    rw [if_pos hv0, if_neg (by linarith : ¬(1805000:ℚ) < v),
      if_neg (by linarith : ¬(2085000:ℚ) < v),
      if_neg (by linarith : ¬(5000000:ℚ) < v),
      if_neg (by linarith : ¬(17000000:ℚ) < v)]
    simp only [bracketContribution]
    ring
  · intro x hx hx2
    rw [calculate_purchase_tax_eq_spec]
    simp only [if_true, FIRST_HOUSE_BRACKETS, purchase_tax_spec_cons,
      purchase_tax_spec_nil]
    rw [if_pos (by linarith : (0:ℚ) < 1805000 + x),
      if_neg (by linarith : ¬(2085000:ℚ) < 1805000 + x),
      if_neg (by linarith : ¬(5000000:ℚ) < 1805000 + x),
      if_neg (by linarith : ¬(17000000:ℚ) < 1805000 + x)]
    rcases eq_or_lt_of_le hx with h0 | hxpos
    · rw [if_neg (by rw [← h0]; norm_num)]
      simp only [bracketContribution]
      rw [← h0]
      ring
    · rw [if_pos (by linarith : (1805000:ℚ) < 1805000 + x)]
      simp only [bracketContribution, bracketUpper]
      rw [min_eq_left (by linarith : (1805000:ℚ) + x ≤ 2085000)]
      ring

/-- Witness for `purchase_tax_bracket_sum`: a first-house property at
1,000,000 is untaxed and one at 1,905,000 pays 3,500. -/
theorem purchase_tax_bracket_sum_witness :
    calculate_purchase_tax 1000000 true = 0 ∧
    calculate_purchase_tax 1905000 true = 3500 := by
  constructor
  · exact purchase_tax_bracket_sum.2.2.1 1000000 (by norm_num) (by norm_num)
  · have h := purchase_tax_bracket_sum.2.2.2 100000 (by norm_num) (by norm_num)
    norm_num at h
    exact h

/-- C7: on both fixed schedules the purchase tax is monotonically
non-decreasing in the amount, zero at zero and at every negative amount, and
at each bracket boundary it equals the sum of the full contributions of
exactly the brackets at or below that boundary. -/
theorem purchase_tax_monotone_bounds (s : Bool) (a c : ℚ) :
    (a ≤ c → calculate_purchase_tax a s ≤ calculate_purchase_tax c s) ∧
    calculate_purchase_tax 0 s = 0 ∧
    (a < 0 → calculate_purchase_tax a s = 0) ∧
    (calculate_purchase_tax 1805000 true = (1805000 - 0) * 0 ∧
     calculate_purchase_tax 2085000 true =
       (1805000 - 0) * 0 + (2085000 - 1805000) * (35/1000) ∧
     calculate_purchase_tax 5000000 true =
       (1805000 - 0) * 0 + (2085000 - 1805000) * (35/1000) +
         (5000000 - 2085000) * (5/100) ∧
     calculate_purchase_tax 17000000 true =
       (1805000 - 0) * 0 + (2085000 - 1805000) * (35/1000) +
         (5000000 - 2085000) * (5/100) + (17000000 - 5000000) * (75/1000)) ∧
    (calculate_purchase_tax 1805000 false = (1805000 - 0) * (8/100) ∧
     calculate_purchase_tax 2085000 false =
       (1805000 - 0) * (8/100) + (2085000 - 1805000) * (8/100) ∧
     calculate_purchase_tax 5000000 false =
       (1805000 - 0) * (8/100) + (2085000 - 1805000) * (8/100) +
         (5000000 - 2085000) * (8/100) ∧
     calculate_purchase_tax 17000000 false =
       (1805000 - 0) * (8/100) + (2085000 - 1805000) * (8/100) +
         (5000000 - 2085000) * (8/100) + (17000000 - 5000000) * (8/100)) := by
  refine ⟨fun hac => calculate_purchase_tax_mono s hac, ?_, ?_, ?_, ?_⟩
  · simp [calculate_purchase_tax]
  · intro ha
    simp [calculate_purchase_tax, ha.le]
  · refine ⟨?_, ?_, ?_, ?_⟩ <;>
      norm_num [calculate_purchase_tax, purchaseTaxLoop, FIRST_HOUSE_BRACKETS, min_def]
  · refine ⟨?_, ?_, ?_, ?_⟩ <;>
      norm_num [calculate_purchase_tax, purchaseTaxLoop, ADDITIONAL_HOUSE_BRACKETS, min_def]

/-- Witness for `purchase_tax_monotone_bounds`: monotonicity at 1,000,000 vs
2,000,000 (first house) and vanishing at -5. -/
theorem purchase_tax_monotone_bounds_witness :
    calculate_purchase_tax 1000000 true ≤ calculate_purchase_tax 2000000 true ∧
    calculate_purchase_tax (-5) false = 0 := by
  constructor
  · exact (purchase_tax_monotone_bounds true 1000000 2000000).1 (by norm_num)
  · exact (purchase_tax_monotone_bounds false (-5) 0).2.2.1 (by norm_num)

/-- Embedding of `models.InvestmentAssumptions` (annual rates as decimals). -/
structure InvestmentAssumptions where
  rental_yield : ℚ
  rent_increase_rate : ℚ
  mortgage_rate : ℚ
  early_repayment_rate : ℚ
  appreciation_rate : ℚ
  portfolio_return_rate : ℚ
  risk_free_rate : ℚ
  capital_gains_tax_rate : ℚ

/-- The default values of `InvestmentAssumptions()`. -/
def defaultAssumptions : InvestmentAssumptions :=
  ⟨28/1000, 3/100, 48/1000, 35/1000, 4/100, 7/100, 3/100, 25/100⟩

/-- Embedding of `models.ScenarioInputs` as stored after construction.
Python `int` fields are `ℤ`, monetary floats are `ℚ`. -/
structure ScenarioInputs where
  property_price : ℚ
  down_payment : ℚ
  available_cash : ℚ
  monthly_income : ℚ
  monthly_available : ℚ
  mortgage_term_years : ℤ
  years_until_sale : ℤ
  urban_renewal_value : ℚ
  is_first_house : Bool
  improvement_costs : ℚ

/-- The `ValueError`s `ScenarioInputs.__post_init__` can raise, in source
order. -/
inductive InputError where
  | nonPositivePrice
  | negativeDownPayment
  | negativeAvailableCash
  | nonPositiveMortgageTerm
  | nonPositiveYearsUntilSale
  | nonPositiveMonthlyIncome
  | negativeImprovementCosts
deriving DecidableEq

/-- Embedding of `ScenarioInputs` construction: `__post_init__` first clamps
`urban_renewal_value` to 400,000 and then validates, raising on the first
violated invariant. -/
def mkScenarioInputs (property_price down_payment available_cash monthly_income
    monthly_available : ℚ) (mortgage_term_years years_until_sale : ℤ)
    (urban_renewal_value : ℚ) (is_first_house : Bool) (improvement_costs : ℚ) :
    Except InputError ScenarioInputs :=
  let urv := min urban_renewal_value 400000
  if property_price ≤ 0 then Except.error InputError.nonPositivePrice
  else if down_payment < 0 then Except.error InputError.negativeDownPayment
  else if available_cash < 0 then Except.error InputError.negativeAvailableCash
  else if mortgage_term_years ≤ 0 then Except.error InputError.nonPositiveMortgageTerm
  else if years_until_sale ≤ 0 then Except.error InputError.nonPositiveYearsUntilSale
  else if monthly_income ≤ 0 then Except.error InputError.nonPositiveMonthlyIncome
  else if improvement_costs < 0 then Except.error InputError.negativeImprovementCosts
  else
    Except.ok ⟨property_price, down_payment, available_cash, monthly_income,
      monthly_available, mortgage_term_years, years_until_sale, urv,
      is_first_house, improvement_costs⟩

/-- Embedding of `ScenarioInputs.calculate_monthly_rent`. -/
def ScenarioInputs.calculate_monthly_rent (inp : ScenarioInputs)
    (rental_yield : ℚ) : ℚ :=
  inp.property_price * rental_yield / 12

/-- Embedding of `ScenarioInputs.calculate_mortgage_amount`. -/
def ScenarioInputs.calculate_mortgage_amount (inp : ScenarioInputs) : ℚ :=
  inp.property_price - inp.down_payment

/-- Embedding of `models.InvestmentRestrictions`. -/
structure InvestmentRestrictions where
  max_mortgage_to_income_ratio : ℚ
  min_down_payment_percentage : ℚ
  max_loan_to_value : ℚ
  max_mortgage_percentage : ℚ
  max_urban_renewal_value : ℚ
  require_positive_cash_flow : Bool

/-- The default values of `InvestmentRestrictions()`. -/
def defaultRestrictions : InvestmentRestrictions :=
  ⟨3/10, 0, 75/100, 75/100, 400000, false⟩

/-- Embedding of `models.LoanMetrics`. -/
structure LoanMetrics where
  loan_amount : ℚ
  leverage_ratio : ℚ
  equity_ratio : ℚ
  leverage_multiplier : ℚ
  monthly_payment : ℚ
  total_payments : ℚ
  total_interest : ℚ
  avg_monthly_interest : ℚ
  mortgage_to_income_ratio : ℚ
deriving DecidableEq

/-- Embedding of `models.CashFlowMetrics`. -/
structure CashFlowMetrics where
  monthly_rent : ℚ
  rental_yield : ℚ
  monthly_net_cash_flow : ℚ
  monthly_interest_flow : ℚ
  avg_principal_payment : ℚ
  leveraged_rental_yield : ℚ
  net_leveraged_yield : ℚ
deriving DecidableEq

/-- Embedding of `models.AppreciationMetrics`. -/
structure AppreciationMetrics where
  property_appreciation : ℚ
  urban_renewal_appreciation : ℚ
  total_appreciation : ℚ
  sale_value : ℚ
  total_return_rate : ℚ
  annualized_return : ℚ
  leveraged_return : ℚ
  net_annual_return : ℚ
deriving DecidableEq

/-- Embedding of `models.EarlyRepaymentMetrics`. -/
structure EarlyRepaymentMetrics where
  remaining_mortgage : ℚ
  early_repayment_penalty : ℚ
  total_debt_to_bank : ℚ
  proceeds_minus_debt : ℚ
  net_gain_property : ℚ
deriving DecidableEq

/-- Embedding of `models.TaxMetrics` (declared in the source's data model;
`ScenarioResult` requires it as a field without a default). -/
structure TaxMetrics where
  purchase_tax : ℚ
  purchase_tax_rate : ℚ
  capital_gains : ℚ
  capital_gains_tax : ℚ
  total_taxes : ℚ
  net_profit_after_taxes : ℚ
deriving DecidableEq

/-- Embedding of `models.PortfolioMetrics`. -/
structure PortfolioMetrics where
  cash_in_portfolio : ℚ
  portfolio_initial_growth : ℚ
  monthly_deposits : ℚ
  accumulated_deposits : ℚ
  total_portfolio_value : ℚ
  portfolio_after_tax : ℚ
  net_portfolio_profit : ℚ
deriving DecidableEq

/-- The policy checks of `ScenarioCalculator.validate`, in source order; the
source appends one formatted message string per failed check, embedded here
as tags since only which branch fires matters to the claims. -/
inductive ValidationError where
  | downPaymentBelowMinimum
  | loanToValueExceeded
  | mortgagePercentageExceeded
  | mortgageToIncomeExceeded
  | negativeCashFlow
  | urbanRenewalExceeded
deriving DecidableEq

/-- Embedding of `models.ScenarioResult`: every field of the dataclass,
`tax_metrics` included (it has no default in the source). -/
structure ScenarioResult where
  inputs : ScenarioInputs
  assumptions : InvestmentAssumptions
  loan_metrics : LoanMetrics
  cash_flow_metrics : CashFlowMetrics
  appreciation_metrics : AppreciationMetrics
  early_repayment_metrics : EarlyRepaymentMetrics
  portfolio_metrics : PortfolioMetrics
  tax_metrics : TaxMetrics
  total_value_at_sale : ℚ
  total_profit : ℚ
  annual_return : ℚ
  is_valid : Bool
  validation_errors : List ValidationError

/-- The calculator's derived `monthly_rent`, computed once at construction:
`inputs.calculate_monthly_rent(assumptions.rental_yield)`. -/
def monthly_rent (inp : ScenarioInputs) (asm : InvestmentAssumptions) : ℚ :=
  inp.calculate_monthly_rent asm.rental_yield

/-- Embedding of `ScenarioCalculator.calculate_loan_metrics`.  In the source
`leverage_multiplier` is `float('inf')` when the equity ratio is not
positive; `ℚ` has no infinity, so that branch carries `0` here; no theorem
below depends on it. -/
def calculate_loan_metrics (inp : ScenarioInputs)
    (asm : InvestmentAssumptions) : LoanMetrics :=
  let loan_amount := inp.calculate_mortgage_amount
  if loan_amount ≤ 0 then
    ⟨0, 0, 1, 1, 0, 0, 0, 0, 0⟩
  else
    let leverage_ratio := loan_amount / inp.property_price
    let equity_ratio := 1 - leverage_ratio
    let leverage_multiplier := if 0 < equity_ratio then 1 / equity_ratio else 0
    let num_payments : ℤ := inp.mortgage_term_years * 12
    let monthly_payment := calculate_pmt asm.mortgage_rate num_payments loan_amount
    let total_payments := monthly_payment * (num_payments : ℚ)
    let total_interest := total_payments - loan_amount
    let avg_monthly_interest :=
      if 0 < num_payments then total_interest / (num_payments : ℚ) else 0
    let mortgage_to_income_ratio :=
      if 0 < inp.monthly_income then monthly_payment / inp.monthly_income else 0
    ⟨loan_amount, leverage_ratio, equity_ratio, leverage_multiplier,
      monthly_payment, total_payments, total_interest, avg_monthly_interest,
      mortgage_to_income_ratio⟩

/-- Embedding of `ScenarioCalculator.calculate_cash_flow`. -/
def calculate_cash_flow (inp : ScenarioInputs) (asm : InvestmentAssumptions)
    (lm : LoanMetrics) : CashFlowMetrics :=
  let rent := monthly_rent inp asm
  let rental_yield := rent * 12 / inp.property_price
  let monthly_net_cash_flow := rent - lm.monthly_payment
  let monthly_interest_flow := rent - lm.avg_monthly_interest
  let avg_principal_payment :=
    if 0 < lm.loan_amount ∧ 0 < inp.mortgage_term_years then
      -lm.loan_amount / (12 * (inp.mortgage_term_years : ℚ))
    else 0
  let leveraged_rental_yield := rental_yield * lm.leverage_multiplier
  let net_leveraged_yield :=
    if 0 < lm.loan_amount then leveraged_rental_yield - asm.mortgage_rate
    else leveraged_rental_yield
  ⟨rent, rental_yield, monthly_net_cash_flow, monthly_interest_flow,
    avg_principal_payment, leveraged_rental_yield, net_leveraged_yield⟩

/-- Embedding of `ScenarioCalculator.calculate_appreciation`. -/
def calculate_appreciation (npfRate : RateFn) (inp : ScenarioInputs)
    (asm : InvestmentAssumptions) (lm : LoanMetrics) (cf : CashFlowMetrics) :
    AppreciationMetrics :=
  let years := inp.years_until_sale
  let property_appreciation :=
    calculate_compound_growth inp.property_price asm.appreciation_rate years
  let urban_renewal_appreciation :=
    calculate_compound_growth inp.urban_renewal_value asm.appreciation_rate years
  let total_appreciation :=
    inp.urban_renewal_value + property_appreciation + urban_renewal_appreciation
  let sale_value := inp.property_price + total_appreciation
  let total_return_rate := sale_value / inp.property_price - 1
  let annualized_return := calculate_annualized_return npfRate total_return_rate years
  let leveraged_return := annualized_return * lm.leverage_multiplier
  let net_annual_return :=
    if 0 < lm.loan_amount then
      leveraged_return + cf.leveraged_rental_yield - asm.mortgage_rate
    else leveraged_return + cf.leveraged_rental_yield
  ⟨property_appreciation, urban_renewal_appreciation, total_appreciation,
    sale_value, total_return_rate, annualized_return, leveraged_return,
    net_annual_return⟩

/-- Embedding of `ScenarioCalculator.calculate_early_repayment`. -/
def calculate_early_repayment (inp : ScenarioInputs)
    (asm : InvestmentAssumptions) (lm : LoanMetrics)
    (am : AppreciationMetrics) : EarlyRepaymentMetrics :=
  let years_until_sale := inp.years_until_sale
  let mortgage_term := inp.mortgage_term_years
  if lm.loan_amount ≤ 0 ∨ mortgage_term ≤ years_until_sale then
    ⟨0, 0, 0, am.sale_value, am.sale_value - inp.down_payment⟩
  else
    let remaining_ratio :=
      ((mortgage_term - years_until_sale : ℤ) : ℚ) / (mortgage_term : ℚ)
    let remaining_mortgage := remaining_ratio * lm.total_payments
    let remaining_months : ℤ := (mortgage_term - years_until_sale) * 12
    let pv_current :=
      calculate_pv (asm.mortgage_rate / 12) remaining_months lm.monthly_payment
    let pv_new :=
      calculate_pv (asm.early_repayment_rate / 12) remaining_months lm.monthly_payment
    let early_repayment_penalty := max 0 (pv_current - pv_new)
    let total_debt_to_bank := remaining_mortgage + early_repayment_penalty
    let proceeds_minus_debt := am.sale_value - total_debt_to_bank
    let net_gain_property := proceeds_minus_debt - inp.down_payment
    ⟨remaining_mortgage, early_repayment_penalty, total_debt_to_bank,
      proceeds_minus_debt, net_gain_property⟩

/-- Embedding of `ScenarioCalculator.calculate_portfolio`. -/
def calculate_portfolio (inp : ScenarioInputs) (asm : InvestmentAssumptions)
    (cf : CashFlowMetrics) : PortfolioMetrics :=
  let years := inp.years_until_sale
  let months : ℤ := years * 12
  let monthly_rate := asm.portfolio_return_rate / 12
  let cash_in_portfolio := inp.available_cash - inp.down_payment
  let portfolio_initial_growth :=
    calculate_compound_value cash_in_portfolio asm.portfolio_return_rate years
  let monthly_deposits := inp.monthly_available + cf.monthly_net_cash_flow
  let accumulated_deposits := calculate_fv monthly_rate months (-monthly_deposits) 0
  let total_portfolio_value := portfolio_initial_growth + accumulated_deposits
  let deposit_gains := accumulated_deposits - monthly_deposits * (months : ℚ)
  let initial_gains := portfolio_initial_growth - cash_in_portfolio
  let total_gains := deposit_gains + initial_gains
  let tax := if 0 < total_gains then total_gains * asm.capital_gains_tax_rate else 0
  let portfolio_after_tax := total_portfolio_value - tax
  let total_contributions := cash_in_portfolio + monthly_deposits * (months : ℚ)
  let net_portfolio_profit := portfolio_after_tax - total_contributions
  ⟨cash_in_portfolio, portfolio_initial_growth, monthly_deposits,
    accumulated_deposits, total_portfolio_value, portfolio_after_tax,
    net_portfolio_profit⟩

/-- Embedding of `ScenarioCalculator.validate`: each check appends its error
in source order; the boolean is `len(errors) == 0`. -/
def validate (inp : ScenarioInputs) (asm : InvestmentAssumptions)
    (rst : InvestmentRestrictions) : Bool × List ValidationError :=
  let lm := calculate_loan_metrics inp asm
  let cf := calculate_cash_flow inp asm lm
  let down_payment_pct := inp.down_payment / inp.property_price
  let e1 : List ValidationError :=
    if down_payment_pct < rst.min_down_payment_percentage then
      [ValidationError.downPaymentBelowMinimum] else []
  let e2 : List ValidationError :=
    if rst.max_loan_to_value < lm.leverage_ratio then
      [ValidationError.loanToValueExceeded] else []
  let mortgage_pct := lm.loan_amount / inp.property_price
  let e3 : List ValidationError :=
    if rst.max_mortgage_percentage < mortgage_pct then
      [ValidationError.mortgagePercentageExceeded] else []
  let e4 : List ValidationError :=
    if rst.max_mortgage_to_income_ratio < lm.mortgage_to_income_ratio then
      [ValidationError.mortgageToIncomeExceeded] else []
  let e5 : List ValidationError :=
    if rst.require_positive_cash_flow ∧ cf.monthly_net_cash_flow < 0 then
      [ValidationError.negativeCashFlow] else []
  let e6 : List ValidationError :=
    if rst.max_urban_renewal_value < inp.urban_renewal_value then
      [ValidationError.urbanRenewalExceeded] else []
  let errors := e1 ++ e2 ++ e3 ++ e4 ++ e5 ++ e6
  (errors.isEmpty, errors)

/-- The runtime failure of the final `ScenarioResult(...)` call in
`ScenarioCalculator.calculate`: the call passes every field by keyword
except `tax_metrics`, which has no default in the dataclass, so CPython
raises `TypeError` before any result object exists. -/
inductive PyError where
  | missingRequiredArgument
deriving DecidableEq

/-- Embedding of `ScenarioCalculator.calculate`.  All stages run (pure float
arithmetic, no exception for constructible inputs), then the method computes
`total_value_at_sale`, `total_profit` and the guarded `annual_return`
(a real-valued power, discarded below) and finally evaluates
`ScenarioResult(inputs=..., ..., validation_errors=...)` with no
`tax_metrics` argument — a `TypeError`, since `ScenarioResult.tax_metrics`
has no default.  The embedding therefore returns that error. -/
def calculate (npfRate : RateFn) (inp : ScenarioInputs)
    (asm : InvestmentAssumptions) (rst : InvestmentRestrictions) :
    Except PyError ScenarioResult :=
  let lm := calculate_loan_metrics inp asm
  let cf := calculate_cash_flow inp asm lm
  let am := calculate_appreciation npfRate inp asm lm cf
  let erm := calculate_early_repayment inp asm lm am
  let pm := calculate_portfolio inp asm cf
  let v := validate inp asm rst
  let total_value_at_sale := erm.proceeds_minus_debt + pm.portfolio_after_tax
  let total_profit := erm.net_gain_property + pm.net_portfolio_profit
  Except.error PyError.missingRequiredArgument

/-- C1 (code bug in the source): `ScenarioCalculator.calculate` can never
return the `ScenarioResult` the claim describes.  Its final constructor call
supplies every dataclass field except `tax_metrics`, which has no default,
so the method raises `TypeError` for every input, assumptions, restrictions
and rate solver — no Stage-6 tax metrics, no totals, no annual return are
ever observable from `calculate()`. -/
theorem calculate_always_raises (npfRate : RateFn) (inp : ScenarioInputs)
    (asm : InvestmentAssumptions) (rst : InvestmentRestrictions) :
    calculate npfRate inp asm rst =
      Except.error PyError.missingRequiredArgument := rfl

/-- C2: `ScenarioInputs` construction fails exactly on the seven listed
invariant violations; any other combination constructs a record storing
every field unchanged except `urban_renewal_value`, clamped to 400,000. -/
theorem scenario_inputs_validation (p dp c mi ma : ℚ) (t y : ℤ) (u : ℚ)
    (f : Bool) (ic : ℚ) :
    ((∃ e, mkScenarioInputs p dp c mi ma t y u f ic = Except.error e) ↔
      (p ≤ 0 ∨ dp < 0 ∨ c < 0 ∨ t ≤ 0 ∨ y ≤ 0 ∨ mi ≤ 0 ∨ ic < 0)) ∧
    (¬(p ≤ 0 ∨ dp < 0 ∨ c < 0 ∨ t ≤ 0 ∨ y ≤ 0 ∨ mi ≤ 0 ∨ ic < 0) →
      mkScenarioInputs p dp c mi ma t y u f ic =
        Except.ok ⟨p, dp, c, mi, ma, t, y, min u 400000, f, ic⟩) := by
  by_cases hbad : p ≤ 0 ∨ dp < 0 ∨ c < 0 ∨ t ≤ 0 ∨ y ≤ 0 ∨ mi ≤ 0 ∨ ic < 0
  · refine ⟨⟨fun _ => hbad, fun _ => ?_⟩, fun hno => absurd hbad hno⟩
    unfold mkScenarioInputs
    split_ifs with h1 h2 h3 h4 h5 h6 h7
    · exact ⟨_, rfl⟩
    · exact ⟨_, rfl⟩
    · exact ⟨_, rfl⟩
    · exact ⟨_, rfl⟩
    · exact ⟨_, rfl⟩
    · exact ⟨_, rfl⟩
    · exact ⟨_, rfl⟩
    · rcases hbad with h | h | h | h | h | h | h <;> contradiction
  · have hno := hbad
    push_neg at hno
    obtain ⟨h1, h2, h3, h4, h5, h6, h7⟩ := hno
    have hok : mkScenarioInputs p dp c mi ma t y u f ic =
        Except.ok ⟨p, dp, c, mi, ma, t, y, min u 400000, f, ic⟩ := by
      unfold mkScenarioInputs
      rw [if_neg (not_le.mpr h1), if_neg (not_lt.mpr h2), if_neg (not_lt.mpr h3),
        if_neg (not_le.mpr h4), if_neg (not_le.mpr h5), if_neg (not_le.mpr h6),
        if_neg (not_lt.mpr h7)]
    refine ⟨⟨?_, fun hd => absurd hd hbad⟩, fun _ => hok⟩
    rintro ⟨e, he⟩
    rw [hok] at he
    exact absurd he (by simp)

/-- Witness for `scenario_inputs_validation`: valid inputs with an
urban-renewal value of 500,000 construct with the value clamped to 400,000
and all other fields unchanged. -/
theorem scenario_inputs_validation_witness :
    mkScenarioInputs 100 0 200 1 5 30 10 500000 true 0 =
      Except.ok ⟨100, 0, 200, 1, 5, 30, 10, 400000, true, 0⟩ := by
  have h := (scenario_inputs_validation 100 0 200 1 5 30 10 500000 true 0).2
    (by push_neg; norm_num)
  rw [h]
  norm_num [min_def]

/-- Fields of a successfully constructed `ScenarioInputs`. -/
lemma mkScenarioInputs_ok_fields {p dp c mi ma : ℚ} {t y : ℤ} {u : ℚ}
    {f : Bool} {ic : ℚ} {s : ScenarioInputs}
    (hs : mkScenarioInputs p dp c mi ma t y u f ic = Except.ok s) :
    s = ⟨p, dp, c, mi, ma, t, y, min u 400000, f, ic⟩ := by
  unfold mkScenarioInputs at hs
  split_ifs at hs <;> simp_all

/-- C10: every successfully constructed `ScenarioInputs` carries
`urban_renewal_value <= 400000`, so against any restrictions whose
urban-renewal cap is at least 400,000 (the default included) the
urban-renewal check of `validate` never appends its error. -/
theorem urban_renewal_check_unreachable (p dp c mi ma : ℚ) (t y : ℤ) (u : ℚ)
    (f : Bool) (ic : ℚ) (s : ScenarioInputs) (asm : InvestmentAssumptions)
    (rst : InvestmentRestrictions)
    (hs : mkScenarioInputs p dp c mi ma t y u f ic = Except.ok s)
    (hcap : 400000 ≤ rst.max_urban_renewal_value) :
    s.urban_renewal_value ≤ 400000 ∧
    ValidationError.urbanRenewalExceeded ∉ (validate s asm rst).2 := by
  have hsu : s.urban_renewal_value ≤ 400000 := by
    rw [mkScenarioInputs_ok_fields hs]
    exact min_le_right u 400000
  refine ⟨hsu, ?_⟩
  have h6 : ¬(rst.max_urban_renewal_value < s.urban_renewal_value) :=
    not_lt.mpr (le_trans hsu hcap)
  unfold validate
  simp only [h6, if_false]
  split_ifs <;> simp

/-- Witness for `urban_renewal_check_unreachable`: an input built with an
over-ceiling urban-renewal value of 500,000 never trips the urban check
under the default restrictions. -/
theorem urban_renewal_check_unreachable_witness :
    ValidationError.urbanRenewalExceeded ∉
      (validate ⟨100, 0, 200, 1, 5, 30, 10, 400000, true, 0⟩ defaultAssumptions
        defaultRestrictions).2 := by
  exact (urban_renewal_check_unreachable 100 0 200 1 5 30 10 500000 true 0
    ⟨100, 0, 200, 1, 5, 30, 10, 400000, true, 0⟩ defaultAssumptions
    defaultRestrictions (by norm_num [mkScenarioInputs, min_def])
    (by norm_num [defaultRestrictions])).2

/-- In the positive-loan branch of Stage 1 the loan amount, monthly payment
and total payments are as computed by the source. -/
lemma calculate_loan_metrics_pos_loan (inp : ScenarioInputs)
    (asm : InvestmentAssumptions)
    (h : 0 < inp.property_price - inp.down_payment) :
    (calculate_loan_metrics inp asm).loan_amount =
      inp.property_price - inp.down_payment ∧
    (calculate_loan_metrics inp asm).monthly_payment =
      calculate_pmt asm.mortgage_rate (inp.mortgage_term_years * 12)
        (inp.property_price - inp.down_payment) ∧
    (calculate_loan_metrics inp asm).total_payments =
      (calculate_loan_metrics inp asm).monthly_payment *
        ((inp.mortgage_term_years * 12 : ℤ) : ℚ) := by
  unfold calculate_loan_metrics ScenarioInputs.calculate_mortgage_amount
  rw [if_neg (not_le.mpr h)]
  exact ⟨rfl, rfl, rfl⟩

/-- C3: the two branches of `calculate_early_repayment` on the Stage-1 loan
metrics.  No loan or on/after-term sale: the zero-debt record with proceeds
equal to the sale value and net gain `saleValue - downPayment`.  Early sale
with a positive loan: remaining mortgage `((term - years)/term) *
totalPayments`, strictly positive at a non-negative mortgage rate; penalty
`max 0 (PV(mortgageRate/12) - PV(earlyRepaymentRate/12))` over the remaining
months at the monthly payment; total debt = remaining + penalty, hence at
least the remaining mortgage; proceeds = saleValue - debt; net gain =
proceeds - downPayment. -/
theorem early_repayment_branches (inp : ScenarioInputs)
    (asm : InvestmentAssumptions) (am : AppreciationMetrics)
    (hterm : 0 < inp.mortgage_term_years) (hr : 0 ≤ asm.mortgage_rate) :
    ((calculate_loan_metrics inp asm).loan_amount ≤ 0 ∨
        inp.mortgage_term_years ≤ inp.years_until_sale →
      calculate_early_repayment inp asm (calculate_loan_metrics inp asm) am =
        ⟨0, 0, 0, am.sale_value, am.sale_value - inp.down_payment⟩) ∧
    (0 < inp.property_price - inp.down_payment →
      inp.years_until_sale < inp.mortgage_term_years →
      calculate_early_repayment inp asm (calculate_loan_metrics inp asm) am =
        ⟨((inp.mortgage_term_years - inp.years_until_sale : ℤ) : ℚ) /
              (inp.mortgage_term_years : ℚ) *
            (calculate_loan_metrics inp asm).total_payments,
          max 0 (calculate_pv (asm.mortgage_rate / 12)
              ((inp.mortgage_term_years - inp.years_until_sale) * 12)
              (calculate_loan_metrics inp asm).monthly_payment -
            calculate_pv (asm.early_repayment_rate / 12)
              ((inp.mortgage_term_years - inp.years_until_sale) * 12)
              (calculate_loan_metrics inp asm).monthly_payment),
          ((inp.mortgage_term_years - inp.years_until_sale : ℤ) : ℚ) /
              (inp.mortgage_term_years : ℚ) *
            (calculate_loan_metrics inp asm).total_payments +
            max 0 (calculate_pv (asm.mortgage_rate / 12)
                ((inp.mortgage_term_years - inp.years_until_sale) * 12)
                (calculate_loan_metrics inp asm).monthly_payment -
              calculate_pv (asm.early_repayment_rate / 12)
                ((inp.mortgage_term_years - inp.years_until_sale) * 12)
                (calculate_loan_metrics inp asm).monthly_payment),
          am.sale_value -
            (((inp.mortgage_term_years - inp.years_until_sale : ℤ) : ℚ) /
                (inp.mortgage_term_years : ℚ) *
              (calculate_loan_metrics inp asm).total_payments +
              max 0 (calculate_pv (asm.mortgage_rate / 12)
                  ((inp.mortgage_term_years - inp.years_until_sale) * 12)
                  (calculate_loan_metrics inp asm).monthly_payment -
                calculate_pv (asm.early_repayment_rate / 12)
                  ((inp.mortgage_term_years - inp.years_until_sale) * 12)
                  (calculate_loan_metrics inp asm).monthly_payment)),
          am.sale_value -
            (((inp.mortgage_term_years - inp.years_until_sale : ℤ) : ℚ) /
                (inp.mortgage_term_years : ℚ) *
              (calculate_loan_metrics inp asm).total_payments +
              max 0 (calculate_pv (asm.mortgage_rate / 12)
                  ((inp.mortgage_term_years - inp.years_until_sale) * 12)
                  (calculate_loan_metrics inp asm).monthly_payment -
                calculate_pv (asm.early_repayment_rate / 12)
                  ((inp.mortgage_term_years - inp.years_until_sale) * 12)
                  (calculate_loan_metrics inp asm).monthly_payment)) -
            inp.down_payment⟩ ∧
      0 < ((inp.mortgage_term_years - inp.years_until_sale : ℤ) : ℚ) /
            (inp.mortgage_term_years : ℚ) *
          (calculate_loan_metrics inp asm).total_payments ∧
      (calculate_early_repayment inp asm (calculate_loan_metrics inp asm)
          am).remaining_mortgage ≤
        (calculate_early_repayment inp asm (calculate_loan_metrics inp asm)
          am).total_debt_to_bank) := by
  constructor
  · intro hcond
    unfold calculate_early_repayment
    rw [if_pos hcond]
  · intro hloan hearly
    obtain ⟨hla, hmp, htp⟩ := calculate_loan_metrics_pos_loan inp asm hloan
    have hcond : ¬((calculate_loan_metrics inp asm).loan_amount ≤ 0 ∨
        inp.mortgage_term_years ≤ inp.years_until_sale) := by
      push_neg
      exact ⟨by rw [hla]; exact hloan, hearly⟩
    set R := ((inp.mortgage_term_years - inp.years_until_sale : ℤ) : ℚ) /
        (inp.mortgage_term_years : ℚ) *
      (calculate_loan_metrics inp asm).total_payments with hR
    set P := max 0 (calculate_pv (asm.mortgage_rate / 12)
        ((inp.mortgage_term_years - inp.years_until_sale) * 12)
        (calculate_loan_metrics inp asm).monthly_payment -
      calculate_pv (asm.early_repayment_rate / 12)
        ((inp.mortgage_term_years - inp.years_until_sale) * 12)
        (calculate_loan_metrics inp asm).monthly_payment) with hP
    have heq : calculate_early_repayment inp asm (calculate_loan_metrics inp asm) am =
        ⟨R, P, R + P, am.sale_value - (R + P),
          am.sale_value - (R + P) - inp.down_payment⟩ := by
      unfold calculate_early_repayment
      rw [if_neg hcond]
    refine ⟨heq, ?_, ?_⟩
    · have hpmt : 0 < (calculate_loan_metrics inp asm).monthly_payment := by
        rw [hmp]
        exact calculate_pmt_pos hloan hr (by omega)
      have htp' : 0 < (calculate_loan_metrics inp asm).total_payments := by
        rw [htp]
        exact mul_pos hpmt (by exact_mod_cast (by omega : (0:ℤ) < inp.mortgage_term_years * 12))
      have hnum : (0:ℚ) < ((inp.mortgage_term_years - inp.years_until_sale : ℤ) : ℚ) := by
        exact_mod_cast (by omega : (0:ℤ) < inp.mortgage_term_years - inp.years_until_sale)
      have hden : (0:ℚ) < (inp.mortgage_term_years : ℚ) := by exact_mod_cast hterm
      rw [hR]
      exact mul_pos (div_pos hnum hden) htp'
    · rw [heq]
      exact le_add_of_nonneg_right (by rw [hP]; exact le_max_left 0 _)

/-- Witness for `early_repayment_branches`: selling after 1 of 2 mortgage
years on a 50-unit loan leaves a strictly positive remaining mortgage. -/
theorem early_repayment_branches_witness :
    0 < (calculate_early_repayment ⟨100, 50, 200, 1, 0, 2, 1, 0, true, 0⟩
        defaultAssumptions
        (calculate_loan_metrics ⟨100, 50, 200, 1, 0, 2, 1, 0, true, 0⟩
          defaultAssumptions)
        ⟨0, 0, 0, 110, 0, 0, 0, 0⟩).remaining_mortgage := by
  have h := (early_repayment_branches ⟨100, 50, 200, 1, 0, 2, 1, 0, true, 0⟩
    defaultAssumptions ⟨0, 0, 0, 110, 0, 0, 0, 0⟩ (by norm_num)
    (by norm_num [defaultAssumptions])).2 (by norm_num) (by norm_num)
  rw [h.1]
  exact h.2.1

/-- Counterexample to C4 as stated: constructible inputs with the down
payment equal to the price but a larger available cash leave
`cash_in_portfolio` non-zero (here 100). -/
theorem full_cash_counterexample :
    mkScenarioInputs 100 100 200 1 0 30 10 0 true 0 =
      Except.ok ⟨100, 100, 200, 1, 0, 30, 10, 0, true, 0⟩ ∧
    (⟨100, 100, 200, 1, 0, 30, 10, 0, true, 0⟩ : ScenarioInputs).down_payment =
      (⟨100, 100, 200, 1, 0, 30, 10, 0, true, 0⟩ : ScenarioInputs).property_price ∧
    (calculate_portfolio ⟨100, 100, 200, 1, 0, 30, 10, 0, true, 0⟩
        defaultAssumptions
        (calculate_cash_flow ⟨100, 100, 200, 1, 0, 30, 10, 0, true, 0⟩
          defaultAssumptions
          (calculate_loan_metrics ⟨100, 100, 200, 1, 0, 30, 10, 0, true, 0⟩
            defaultAssumptions))).cash_in_portfolio ≠ 0 := by
  refine ⟨by norm_num [mkScenarioInputs, min_def], rfl, ?_⟩
  show (200 : ℚ) - 100 ≠ 0
  norm_num

/-- C4 (amended): a non-positive mortgage amount short-circuits Stage 1 to
the zero-loan record (leverage ratio 0, equity ratio 1, multiplier 1, no
payment, no interest, no income ratio); with `downPayment == price` and a
positive rental yield the monthly net cash flow equals the monthly rent and
is positive, and `cash_in_portfolio` equals `availableCash - downPayment`,
zero exactly when the available cash equals the down payment. -/
theorem full_cash_scenario (inp : ScenarioInputs) (asm : InvestmentAssumptions)
    (hp : 0 < inp.property_price) (hy : 0 < asm.rental_yield) :
    (inp.property_price - inp.down_payment ≤ 0 →
      calculate_loan_metrics inp asm = ⟨0, 0, 1, 1, 0, 0, 0, 0, 0⟩) ∧
    (inp.down_payment = inp.property_price →
      (calculate_cash_flow inp asm
          (calculate_loan_metrics inp asm)).monthly_net_cash_flow =
        monthly_rent inp asm ∧
      0 < monthly_rent inp asm ∧
      (calculate_portfolio inp asm
          (calculate_cash_flow inp asm
            (calculate_loan_metrics inp asm))).cash_in_portfolio =
        inp.available_cash - inp.down_payment ∧
      ((calculate_portfolio inp asm
          (calculate_cash_flow inp asm
            (calculate_loan_metrics inp asm))).cash_in_portfolio = 0 ↔
        inp.available_cash = inp.down_payment)) := by
  have hshort : inp.property_price - inp.down_payment ≤ 0 →
      calculate_loan_metrics inp asm = ⟨0, 0, 1, 1, 0, 0, 0, 0, 0⟩ := by
    intro h
    unfold calculate_loan_metrics ScenarioInputs.calculate_mortgage_amount
    rw [if_pos h]
  refine ⟨hshort, ?_⟩
  intro hdp
  have hlm := hshort (by rw [hdp]; simp)
  refine ⟨?_, ?_, rfl, sub_eq_zero⟩
  · rw [hlm]
    show monthly_rent inp asm - (0 : ℚ) = monthly_rent inp asm
    ring
  · unfold monthly_rent ScenarioInputs.calculate_monthly_rent
    positivity

/-- Witness for `full_cash_scenario`: price, down payment and available cash
all 100 give net cash flow equal to the rent and zero portfolio cash. -/
theorem full_cash_scenario_witness :
    (calculate_cash_flow ⟨100, 100, 100, 1, 0, 30, 10, 0, true, 0⟩
        defaultAssumptions
        (calculate_loan_metrics ⟨100, 100, 100, 1, 0, 30, 10, 0, true, 0⟩
          defaultAssumptions)).monthly_net_cash_flow =
      monthly_rent ⟨100, 100, 100, 1, 0, 30, 10, 0, true, 0⟩ defaultAssumptions ∧
    (calculate_portfolio ⟨100, 100, 100, 1, 0, 30, 10, 0, true, 0⟩
        defaultAssumptions
        (calculate_cash_flow ⟨100, 100, 100, 1, 0, 30, 10, 0, true, 0⟩
          defaultAssumptions
          (calculate_loan_metrics ⟨100, 100, 100, 1, 0, 30, 10, 0, true, 0⟩
            defaultAssumptions))).cash_in_portfolio = 0 := by
  have h := (full_cash_scenario ⟨100, 100, 100, 1, 0, 30, 10, 0, true, 0⟩
    defaultAssumptions (by norm_num) (by norm_num [defaultAssumptions])).2 rfl
  exact ⟨h.1, h.2.2.2.mpr rfl⟩

/-- Moving the source's conditional tax to the spec's `max` form. -/
lemma sub_ite_tax (t g r : ℚ) :
    t - (if 0 < g then g * r else 0) = t - max 0 g * r := by
  rcases lt_or_le 0 g with h | h
  · rw [if_pos h, max_eq_right h.le]
  · rw [if_neg (not_lt.mpr h), max_eq_left h, zero_mul]

/-- C5: field-by-field contract of `calculate_portfolio`: initial cash
`availableCash - downPayment` grown as a lump sum over the holding years;
monthly deposits `monthlyAvailable + netCashFlow` accumulated by FV at the
monthly portfolio rate over `years*12` months; total value is their sum;
tax is `max(0, totalGains) * capitalGainsTaxRate` with gains measured
against the amounts contributed; after-tax value and net profit follow. -/
theorem portfolio_contract (inp : ScenarioInputs) (asm : InvestmentAssumptions)
    (cf : CashFlowMetrics) :
    (calculate_portfolio inp asm cf).cash_in_portfolio =
      inp.available_cash - inp.down_payment ∧
    (calculate_portfolio inp asm cf).portfolio_initial_growth =
      calculate_compound_value (inp.available_cash - inp.down_payment)
        asm.portfolio_return_rate inp.years_until_sale ∧
    (calculate_portfolio inp asm cf).monthly_deposits =
      inp.monthly_available + cf.monthly_net_cash_flow ∧
    (calculate_portfolio inp asm cf).accumulated_deposits =
      calculate_fv (asm.portfolio_return_rate / 12) (inp.years_until_sale * 12)
        (-(inp.monthly_available + cf.monthly_net_cash_flow)) 0 ∧
    (calculate_portfolio inp asm cf).total_portfolio_value =
      (calculate_portfolio inp asm cf).portfolio_initial_growth +
        (calculate_portfolio inp asm cf).accumulated_deposits ∧
    (calculate_portfolio inp asm cf).portfolio_after_tax =
      (calculate_portfolio inp asm cf).total_portfolio_value -
        max 0 (((calculate_portfolio inp asm cf).accumulated_deposits -
            (calculate_portfolio inp asm cf).monthly_deposits *
              ((inp.years_until_sale * 12 : ℤ) : ℚ)) +
          ((calculate_portfolio inp asm cf).portfolio_initial_growth -
            (inp.available_cash - inp.down_payment))) *
          asm.capital_gains_tax_rate ∧
    (calculate_portfolio inp asm cf).net_portfolio_profit =
      (calculate_portfolio inp asm cf).portfolio_after_tax -
        ((inp.available_cash - inp.down_payment) +
          (calculate_portfolio inp asm cf).monthly_deposits *
            ((inp.years_until_sale * 12 : ℤ) : ℚ)) := by
  refine ⟨rfl, rfl, rfl, rfl, rfl, ?_, rfl⟩
  exact sub_ite_tax _ _ _
